import Mathlib

/-!
Shallow embedding of the PolicyVault Solana program
(`src/onchain/policyvault/programs/policyvault/src/lib.rs`).

Modelling conventions:
* `Pubkey` is modelled as `Nat`; `Pubkey::default()` is `0`.
* Rust `u64` values are `Nat`s; `checked_add` is explicit with the
  `2^64 - 1` bound, `u16::saturating_add` is explicit with `65535`.
* Rust `i64` timestamps are `Int`; Rust's `/` on `i64` truncates toward
  zero, which is Lean's `Int.tdiv`.
* Every instruction handler is a total function returning `Option`:
  `none` models a failed Solana transaction (a `require!` error, an
  `unwrap` panic, or the `InsufficientFunds` error), which rolls back
  every account write, so a failed call leaves no state change and no
  persisted `AuditEvent`.
* Anchor plumbing (bump seeds, rent, the PDA addressing of accounts) is
  outside the embedded core; the lamport balances of the vault and the
  recipient are passed explicitly.
-/

namespace PolicyVault

/-- Reason code `REASON_OK = 1` (lib.rs line 6). -/
def REASON_OK : Nat := 1

/-- Reason code `REASON_BUDGET_EXCEEDED = 2` (lib.rs line 7). -/
def REASON_BUDGET_EXCEEDED : Nat := 2

/-- Reason code `REASON_COOLDOWN = 3` (lib.rs line 8). -/
def REASON_COOLDOWN : Nat := 3

/-- Reason code `REASON_INVALID_AMOUNT = 4` (lib.rs line 9). -/
def REASON_INVALID_AMOUNT : Nat := 4

/-- Reason code `REASON_PAUSED = 5` (lib.rs line 10). -/
def REASON_PAUSED : Nat := 5

/-- Reason code `REASON_RECIPIENT_NOT_ALLOWED = 6` (lib.rs line 11). -/
def REASON_RECIPIENT_NOT_ALLOWED : Nat := 6

/-- Reason code `REASON_RECIPIENT_CAP_EXCEEDED = 7` (lib.rs line 12). -/
def REASON_RECIPIENT_CAP_EXCEEDED : Nat := 7

/-- `SECONDS_PER_DAY = 86_400` (lib.rs line 14). -/
def SECONDS_PER_DAY : Int := 86400

/-- Largest `u64` value. -/
def U64_MAX : Nat := 2 ^ 64 - 1

/-- Largest `u16` value. -/
def U16_MAX : Nat := 65535

/-- Rust `u64::checked_add`: `none` exactly when the mathematical sum
exceeds `u64::MAX`. -/
def checkedAddU64 (a b : Nat) : Option Nat :=
  if a + b ≤ U64_MAX then some (a + b) else none

/-- Rust `u16::saturating_add`. -/
def saturatingAddU16 (a b : Nat) : Nat :=
  min (a + b) U16_MAX

/-- Rust `i64` division: truncation toward zero (`Int.div`), as used for
`clock.unix_timestamp / SECONDS_PER_DAY` (lib.rs lines 44, 126, 215). -/
def currentDayOf (now : Int) : Int :=
  Int.tdiv now SECONDS_PER_DAY

/-- The `Policy` account (lib.rs lines 363-383), sans the Anchor bump. -/
structure Policy where
  vault : Nat
  authority : Nat
  agent : Option Nat
  daily_budget_lamports : Nat
  spent_today_lamports : Nat
  day_index : Int
  cooldown_seconds : Nat
  last_spend_ts : Int
  next_sequence : Nat
  paused : Bool
  allowlist_enabled : Bool
  allowed_recipient : Option Nat
  per_recipient_daily_cap_lamports : Nat
  policy_version : Nat
  deriving DecidableEq, Repr

/-- The `AuditEvent` account (lib.rs lines 392-402). -/
structure AuditEvent where
  policy : Nat
  sequence : Nat
  ts : Int
  recipient : Nat
  amount : Nat
  allowed : Bool
  reason_code : Nat
  policy_version : Nat
  deriving DecidableEq, Repr

/-- The `RecipientSpend` account (lib.rs lines 409-416), sans the bump.
A freshly `init_if_needed`-created account is all zeroes, in particular
`policy = Pubkey::default() = 0`. -/
structure RecipientSpend where
  policy : Nat
  recipient : Nat
  spent_today_lamports : Nat
  day_index : Int
  deriving DecidableEq, Repr

/-- Day-window rollover on the policy (lib.rs lines 129-132 and 218-221):
if the current day differs from the stored one, zero `spent_today_lamports`
and store the current day. -/
def rolloverPolicy (policy : Policy) (current_day : Int) : Policy :=
  if current_day ≠ policy.day_index then
    { policy with spent_today_lamports := 0, day_index := current_day }
  else policy

/-- Per-recipient tracker rollover (lib.rs lines 224-235): a fresh account
(`policy == Pubkey::default()`) gets its fixed fields filled; otherwise the
tracker resets when its own stored day differs from the current day. -/
def rolloverRecipientSpend (rs : RecipientSpend) (policy_key recipient : Nat)
    (current_day : Int) : RecipientSpend :=
  if rs.policy = 0 then
    { policy := policy_key, recipient := recipient,
      spent_today_lamports := 0, day_index := current_day }
  else if rs.day_index ≠ current_day then
    { rs with spent_today_lamports := 0, day_index := current_day }
  else rs

/-- Rule chain of `spend_intent` (lib.rs lines 135-150): invalid amount,
then daily budget (checked add saturating to `u64::MAX`), then cooldown. -/
def decideV1 (policy : Policy) (now : Int) (amount : Nat) : Bool × Nat :=
  if amount = 0 then
    (false, REASON_INVALID_AMOUNT)
  else if (checkedAddU64 policy.spent_today_lamports amount).getD U64_MAX >
      policy.daily_budget_lamports then
    (false, REASON_BUDGET_EXCEEDED)
  else if policy.last_spend_ts > 0 ∧
      now - policy.last_spend_ts < (policy.cooldown_seconds : Int) then
    (false, REASON_COOLDOWN)
  else
    (true, REASON_OK)

/-- First stage of the `spend_intent_v2` rule chain (lib.rs lines 238-249):
invalid amount, pause, allowlist. -/
def decideV2a (policy : Policy) (recipient : Nat) (amount : Nat) : Bool × Nat :=
  if amount = 0 then
    (false, REASON_INVALID_AMOUNT)
  else if policy.paused then
    (false, REASON_PAUSED)
  else if policy.allowlist_enabled then
    match policy.allowed_recipient with
    | some allowed_pk =>
        if allowed_pk = recipient then (true, REASON_OK)
        else (false, REASON_RECIPIENT_NOT_ALLOWED)
    | none => (false, REASON_RECIPIENT_NOT_ALLOWED)
  else
    (true, REASON_OK)

/-- Second stage of the `spend_intent_v2` rule chain (lib.rs lines 252-275):
keep an existing denial, else check daily budget, cooldown, and the
per-recipient daily cap. -/
def decideV2b (policy : Policy) (rs : RecipientSpend) (now : Int) (amount : Nat)
    (d : Bool × Nat) : Bool × Nat :=
  if d.1 = false then
    d
  else if (checkedAddU64 policy.spent_today_lamports amount).getD U64_MAX >
      policy.daily_budget_lamports then
    (false, REASON_BUDGET_EXCEEDED)
  else if policy.last_spend_ts > 0 ∧
      now - policy.last_spend_ts < (policy.cooldown_seconds : Int) then
    (false, REASON_COOLDOWN)
  else if policy.per_recipient_daily_cap_lamports > 0 ∧
      (checkedAddU64 rs.spent_today_lamports amount).getD U64_MAX >
        policy.per_recipient_daily_cap_lamports then
    (false, REASON_RECIPIENT_CAP_EXCEEDED)
  else
    (true, REASON_OK)

/-- Full `spend_intent_v2` rule chain. -/
def decideV2 (policy : Policy) (rs : RecipientSpend) (now : Int)
    (recipient : Nat) (amount : Nat) : Bool × Nat :=
  decideV2b policy rs now amount (decideV2a policy recipient amount)

/-- `initialize_policy` (lib.rs lines 32-56): fresh policy with zeroed
counters, creation day index, version 1. -/
def init_policy (vault_key owner : Nat) (daily_budget_lamports : Nat)
    (cooldown_seconds : Nat) (agent : Option Nat) (now : Int) : Policy :=
  { vault := vault_key
    authority := owner
    agent := agent
    daily_budget_lamports := daily_budget_lamports
    spent_today_lamports := 0
    day_index := currentDayOf now
    cooldown_seconds := cooldown_seconds
    last_spend_ts := 0
    next_sequence := 0
    paused := false
    allowlist_enabled := false
    allowed_recipient := none
    per_recipient_daily_cap_lamports := 0
    policy_version := 1 }

/-- `set_policy` (lib.rs lines 59-76): authority-only; replaces budget,
cooldown and agent; bumps `policy_version` with `saturating_add(1)`. -/
def set_policy (policy : Policy) (authority_signer : Nat)
    (daily_budget_lamports : Nat) (cooldown_seconds : Nat)
    (agent : Option Nat) : Option Policy :=
  if authority_signer = policy.authority then
    some { policy with
            daily_budget_lamports := daily_budget_lamports
            cooldown_seconds := cooldown_seconds
            agent := agent
            policy_version := saturatingAddU16 policy.policy_version 1 }
  else none

/-- `set_policy_advanced` (lib.rs lines 81-109): authority-only; also
replaces pause, allowlist and per-recipient-cap fields. -/
def set_policy_advanced (policy : Policy) (authority_signer : Nat)
    (daily_budget_lamports : Nat) (cooldown_seconds : Nat)
    (agent : Option Nat) (paused : Bool) (allowlist_enabled : Bool)
    (allowed_recipient : Option Nat)
    (per_recipient_daily_cap_lamports : Nat) : Option Policy :=
  if authority_signer = policy.authority then
    some { policy with
            daily_budget_lamports := daily_budget_lamports
            cooldown_seconds := cooldown_seconds
            agent := agent
            paused := paused
            allowlist_enabled := allowlist_enabled
            allowed_recipient := allowed_recipient
            per_recipient_daily_cap_lamports := per_recipient_daily_cap_lamports
            policy_version := saturatingAddU16 policy.policy_version 1 }
  else none

/-- The allowed branch of `spend_intent` (lib.rs lines 167-181):
`spent_today += amount` (unwrap), `last_spend_ts = now`, then the lamport
moves — `checked_sub` on the vault (`InsufficientFunds` on underflow) and
`checked_add` on the recipient (unwrap). -/
def applyAllowedV1 (policy : Policy) (vault_lamports recipient_lamports : Nat)
    (now : Int) (amount : Nat) : Option (Policy × Nat × Nat) :=
  match checkedAddU64 policy.spent_today_lamports amount with
  | none => none
  | some s =>
    if amount ≤ vault_lamports then
      match checkedAddU64 recipient_lamports amount with
      | none => none
      | some r =>
        some ({ policy with spent_today_lamports := s, last_spend_ts := now },
              vault_lamports - amount, r)
    else none

/-- `spend_intent` (lib.rs lines 116-197). Returns the updated policy, the
vault and recipient lamport balances, and the written `AuditEvent`; `none`
is a failed (rolled-back) transaction. -/
def spend_intent (policy_key : Nat) (policy : Policy)
    (vault_lamports recipient_lamports : Nat) (caller recipient : Nat)
    (now : Int) (amount : Nat) : Option (Policy × Nat × Nat × AuditEvent) :=
  if caller = policy.authority ∨ policy.agent = some caller then
    let p1 := rolloverPolicy policy (currentDayOf now)
    let d := decideV1 p1 now amount
    let audit : AuditEvent :=
      { policy := policy_key
        sequence := p1.next_sequence
        ts := now
        recipient := recipient
        amount := amount
        allowed := d.1
        reason_code := d.2
        policy_version := p1.policy_version }
    match checkedAddU64 p1.next_sequence 1 with
    | none => none
    | some ns =>
      let p2 := { p1 with next_sequence := ns }
      if d.1 then
        (applyAllowedV1 p2 vault_lamports recipient_lamports now amount).map
          (fun t => (t.1, t.2.1, t.2.2, audit))
      else
        some (p2, vault_lamports, recipient_lamports, audit)
  else none

/-- The allowed branch of `spend_intent_v2` (lib.rs lines 292-310): policy
and per-recipient counters bumped with `checked_add(..).unwrap()`, then the
lamport moves as in `spend_intent`. -/
def applyAllowedV2 (policy : Policy) (rs : RecipientSpend)
    (vault_lamports recipient_lamports : Nat) (now : Int) (amount : Nat) :
    Option (Policy × RecipientSpend × Nat × Nat) :=
  match checkedAddU64 policy.spent_today_lamports amount with
  | none => none
  | some s =>
    match checkedAddU64 rs.spent_today_lamports amount with
    | none => none
    | some rsSpent =>
      if amount ≤ vault_lamports then
        match checkedAddU64 recipient_lamports amount with
        | none => none
        | some r =>
          some ({ policy with spent_today_lamports := s, last_spend_ts := now },
                { rs with spent_today_lamports := rsSpent },
                vault_lamports - amount, r)
      else none

/-- `spend_intent_v2` (lib.rs lines 205-325). -/
def spend_intent_v2 (policy_key : Nat) (policy : Policy)
    (recipient_spend : RecipientSpend)
    (vault_lamports recipient_lamports : Nat) (caller recipient : Nat)
    (now : Int) (amount : Nat) :
    Option (Policy × RecipientSpend × Nat × Nat × AuditEvent) :=
  if caller = policy.authority ∨ policy.agent = some caller then
    let current_day := currentDayOf now
    let p1 := rolloverPolicy policy current_day
    let rs1 := rolloverRecipientSpend recipient_spend policy_key recipient current_day
    let d := decideV2 p1 rs1 now recipient amount
    let audit : AuditEvent :=
      { policy := policy_key
        sequence := p1.next_sequence
        ts := now
        recipient := recipient
        amount := amount
        allowed := d.1
        reason_code := d.2
        policy_version := p1.policy_version }
    match checkedAddU64 p1.next_sequence 1 with
    | none => none
    | some ns =>
      let p2 := { p1 with next_sequence := ns }
      if d.1 then
        (applyAllowedV2 p2 rs1 vault_lamports recipient_lamports now amount).map
          (fun t => (t.1, t.2.1, t.2.2.1, t.2.2.2, audit))
      else
        some (p2, rs1, vault_lamports, recipient_lamports, audit)
  else none

/-- A benign concrete policy used as the base of concrete test states:
authority `1`, no agent, budget `1000`, no cooldown, day `0`. -/
def basePolicy : Policy :=
  { vault := 0
    authority := 1
    agent := none
    daily_budget_lamports := 1000
    spent_today_lamports := 0
    day_index := 0
    cooldown_seconds := 0
    last_spend_ts := 0
    next_sequence := 0
    paused := false
    allowlist_enabled := false
    allowed_recipient := none
    per_recipient_daily_cap_lamports := 0
    policy_version := 1 }

/-- A fresh (all-zero) recipient tracker, as produced by `init_if_needed`. -/
def freshRecipientSpend : RecipientSpend :=
  { policy := 0, recipient := 0, spent_today_lamports := 0, day_index := 0 }

/-! ### Sequences of spend-intent calls (for the audit ordering claims) -/

/-- One spend-intent call with its per-call environment: the account keys,
the lamport balances the runtime supplies, the clock value, and (for v2)
the recipient tracker account content. -/
inductive SpendCall where
  | v1 (policy_key vault_lamports recipient_lamports caller recipient : Nat)
       (now : Int) (amount : Nat)
  | v2 (policy_key : Nat) (rs : RecipientSpend)
       (vault_lamports recipient_lamports caller recipient : Nat)
       (now : Int) (amount : Nat)
  deriving DecidableEq, Repr

/-- Run one call against a policy, keeping the updated policy and the
written audit event. -/
def runCall (p : Policy) : SpendCall → Option (Policy × AuditEvent)
  | .v1 pk v r c rcp now amt =>
      (spend_intent pk p v r c rcp now amt).map (fun t => (t.1, t.2.2.2))
  | .v2 pk rs v r c rcp now amt =>
      (spend_intent_v2 pk p rs v r c rcp now amt).map (fun t => (t.1, t.2.2.2.2))

/-- Run a list of calls; `none` as soon as one call fails, otherwise the
final policy and the audit events in call order. -/
def runCalls (p : Policy) : List SpendCall → Option (Policy × List AuditEvent)
  | [] => some (p, [])
  | call :: rest =>
    match runCall p call with
    | none => none
    | some (p2, a) =>
      match runCalls p2 rest with
      | none => none
      | some (pf, audits) => some (pf, a :: audits)


/-! ### Reachable policy states (for the budget invariant claim) -/

/-- Policy states reachable from `initialize_policy` by spend intents and
by admin updates that never set the daily budget below the
already-accumulated `spent_today_lamports`. -/
inductive ReachableBudget : Policy → Prop where
  | init (vault_key owner budget cooldown : Nat) (agent : Option Nat) (now : Int) :
      ReachableBudget (init_policy vault_key owner budget cooldown agent now)
  | set_simple {p p2 : Policy} {s budget cooldown : Nat} {agent : Option Nat} :
      ReachableBudget p →
      p.spent_today_lamports ≤ budget →
      set_policy p s budget cooldown agent = some p2 →
      ReachableBudget p2
  | set_adv {p p2 : Policy} {s budget cooldown : Nat} {agent : Option Nat}
      {pz al : Bool} {ar : Option Nat} {cap : Nat} :
      ReachableBudget p →
      p.spent_today_lamports ≤ budget →
      set_policy_advanced p s budget cooldown agent pz al ar cap = some p2 →
      ReachableBudget p2
  | spend_v1 {p : Policy} {pk v r c rcp : Nat} {now : Int} {amt : Nat}
      {out : Policy × Nat × Nat × AuditEvent} :
      ReachableBudget p →
      spend_intent pk p v r c rcp now amt = some out →
      ReachableBudget out.1
  | spend_v2 {p : Policy} {pk : Nat} {rs : RecipientSpend} {v r c rcp : Nat}
      {now : Int} {amt : Nat}
      {out : Policy × RecipientSpend × Nat × Nat × AuditEvent} :
      ReachableBudget p →
      spend_intent_v2 pk p rs v r c rcp now amt = some out →
      ReachableBudget out.1


/-! ### Inversion and frame lemmas for the embedded operations -/

theorem checkedAddU64_some {a b c : Nat} (h : checkedAddU64 a b = some c) :
    c = a + b ∧ a + b ≤ U64_MAX := by
  unfold checkedAddU64 at h
  split at h
  · exact ⟨by injection h with h1; exact h1.symm, by assumption⟩
  · exact absurd h (by simp)

theorem checkedAddU64_isSome {a b : Nat} (h : a + b ≤ U64_MAX) :
    checkedAddU64 a b = some (a + b) := by
  unfold checkedAddU64
  simp [h]

theorem checkedAddU64_none {a b : Nat} (h : checkedAddU64 a b = none) :
    U64_MAX < a + b := by
  unfold checkedAddU64 at h
  split at h
  · exact absurd h (by simp)
  · omega

theorem rolloverPolicy_next_sequence (p : Policy) (d : Int) :
    (rolloverPolicy p d).next_sequence = p.next_sequence := by
  unfold rolloverPolicy; split <;> rfl

theorem rolloverPolicy_daily_budget (p : Policy) (d : Int) :
    (rolloverPolicy p d).daily_budget_lamports = p.daily_budget_lamports := by
  unfold rolloverPolicy; split <;> rfl

theorem rolloverPolicy_cooldown (p : Policy) (d : Int) :
    (rolloverPolicy p d).cooldown_seconds = p.cooldown_seconds := by
  unfold rolloverPolicy; split <;> rfl

theorem rolloverPolicy_last_spend_ts (p : Policy) (d : Int) :
    (rolloverPolicy p d).last_spend_ts = p.last_spend_ts := by
  unfold rolloverPolicy; split <;> rfl

theorem rolloverPolicy_paused (p : Policy) (d : Int) :
    (rolloverPolicy p d).paused = p.paused := by
  unfold rolloverPolicy; split <;> rfl

theorem rolloverPolicy_allowlist_enabled (p : Policy) (d : Int) :
    (rolloverPolicy p d).allowlist_enabled = p.allowlist_enabled := by
  unfold rolloverPolicy; split <;> rfl

theorem rolloverPolicy_allowed_recipient (p : Policy) (d : Int) :
    (rolloverPolicy p d).allowed_recipient = p.allowed_recipient := by
  unfold rolloverPolicy; split <;> rfl

theorem rolloverPolicy_day_index (p : Policy) (d : Int) :
    (rolloverPolicy p d).day_index = d := by
  unfold rolloverPolicy
  split
  · rfl
  · simp_all

theorem rolloverRecipientSpend_day_index (rs : RecipientSpend)
    (pk rcp : Nat) (d : Int) :
    (rolloverRecipientSpend rs pk rcp d).day_index = d := by
  unfold rolloverRecipientSpend
  split
  · rfl
  · split
    · rfl
    · simp_all

theorem rolloverPolicy_spent_le {p : Policy} {B : Nat} (d : Int)
    (h : p.spent_today_lamports ≤ B) :
    (rolloverPolicy p d).spent_today_lamports ≤ B := by
  unfold rolloverPolicy
  split
  · exact Nat.zero_le _
  · exact h

theorem applyAllowedV1_some {p : Policy} {v r : Nat} {now : Int} {amt : Nat}
    {t : Policy × Nat × Nat} (h : applyAllowedV1 p v r now amt = some t) :
    p.spent_today_lamports + amt ≤ U64_MAX ∧ amt ≤ v ∧ r + amt ≤ U64_MAX ∧
    t = ({ p with spent_today_lamports := p.spent_today_lamports + amt, last_spend_ts := now },
         v - amt, r + amt) := by
  unfold applyAllowedV1 at h
  split at h
  · exact absurd h (by simp)
  case _ s hs =>
    obtain ⟨rfl, hle⟩ := checkedAddU64_some hs
    split at h
    · split at h
      · exact absurd h (by simp)
      case _ r2 hr =>
        obtain ⟨rfl, hr2⟩ := checkedAddU64_some hr
        exact ⟨hle, by assumption, hr2, by injection h with h2; exact h2.symm⟩
    · exact absurd h (by simp)

theorem applyAllowedV2_some {p : Policy} {rs : RecipientSpend} {v r : Nat}
    {now : Int} {amt : Nat} {t : Policy × RecipientSpend × Nat × Nat}
    (h : applyAllowedV2 p rs v r now amt = some t) :
    p.spent_today_lamports + amt ≤ U64_MAX ∧
    rs.spent_today_lamports + amt ≤ U64_MAX ∧ amt ≤ v ∧ r + amt ≤ U64_MAX ∧
    t = ({ p with spent_today_lamports := p.spent_today_lamports + amt, last_spend_ts := now },
         { rs with spent_today_lamports := rs.spent_today_lamports + amt },
         v - amt, r + amt) := by
  unfold applyAllowedV2 at h
  split at h
  · exact absurd h (by simp)
  case _ s hs =>
    obtain ⟨rfl, hle⟩ := checkedAddU64_some hs
    split at h
    · exact absurd h (by simp)
    case _ s2 hs2 =>
      obtain ⟨rfl, hle2⟩ := checkedAddU64_some hs2
      split at h
      · split at h
        · exact absurd h (by simp)
        case _ r2 hr =>
          obtain ⟨rfl, hr2⟩ := checkedAddU64_some hr
          exact ⟨hle, hle2, by assumption, hr2, by injection h with h2; exact h2.symm⟩
      · exact absurd h (by simp)

theorem decideV1_true {p : Policy} {now : Int} {amt : Nat} {r : Nat}
    (h : decideV1 p now amt = (true, r)) :
    amt ≠ 0 ∧
    (checkedAddU64 p.spent_today_lamports amt).getD U64_MAX ≤
      p.daily_budget_lamports ∧
    r = REASON_OK := by
  unfold decideV1 at h
  split at h
  · exact absurd h (by simp)
  · split at h
    · exact absurd h (by simp)
    · split at h
      · exact absurd h (by simp)
      · exact ⟨by assumption, by omega, by injection h with _ h2; exact h2.symm⟩

theorem decideV2_true {p : Policy} {rs : RecipientSpend} {now : Int}
    {rcp amt : Nat} {r : Nat} (h : decideV2 p rs now rcp amt = (true, r)) :
    (checkedAddU64 p.spent_today_lamports amt).getD U64_MAX ≤
      p.daily_budget_lamports := by
  unfold decideV2 decideV2b at h
  split at h
  · rename_i hfalse
    rw [h] at hfalse
    exact absurd hfalse (by simp)
  · split at h
    · exact absurd h (by simp)
    · omega

theorem spend_intent_inv {pk : Nat} {p p1 : Policy} {v r c rcp : Nat}
    {now : Int} {amt : Nat} {d : Bool × Nat} {out : Policy × Nat × Nat × AuditEvent}
    (hp1 : rolloverPolicy p (currentDayOf now) = p1)
    (hd : decideV1 p1 now amt = d)
    (h : spend_intent pk p v r c rcp now amt = some out) :
    (c = p.authority ∨ p.agent = some c) ∧
    p1.next_sequence + 1 ≤ U64_MAX ∧
    out.2.2.2 = { policy := pk, sequence := p1.next_sequence, ts := now,
                  recipient := rcp, amount := amt, allowed := d.1,
                  reason_code := d.2, policy_version := p1.policy_version } ∧
    ((d.1 = true ∧ p1.spent_today_lamports + amt ≤ U64_MAX ∧ amt ≤ v ∧
        r + amt ≤ U64_MAX ∧
        out.1 = { p1 with next_sequence := p1.next_sequence + 1, spent_today_lamports := p1.spent_today_lamports + amt, last_spend_ts := now } ∧
        out.2.1 = v - amt ∧ out.2.2.1 = r + amt) ∨
      (d.1 = false ∧
        out.1 = { p1 with next_sequence := p1.next_sequence + 1 } ∧
        out.2.1 = v ∧ out.2.2.1 = r)) := by
  simp only [spend_intent] at h
  rw [hp1, hd] at h
  split at h
  case isFalse => exact absurd h (by simp)
  case isTrue hauth =>
    split at h
    case h_1 heq => exact absurd h (by simp)
    case h_2 ns heq =>
      obtain ⟨rfl, hns⟩ := checkedAddU64_some heq
      split at h
      case isTrue hd1 =>
        obtain ⟨t, ht, hft⟩ := Option.map_eq_some'.mp h
        obtain ⟨h1, h2, h3, rfl⟩ := applyAllowedV1_some ht
        refine ⟨hauth, hns, ?_, Or.inl ⟨hd1, h1, h2, h3, ?_, ?_, ?_⟩⟩ <;>
          simp [← hft]
      case isFalse hd1 =>
        injection h with h2
        refine ⟨hauth, hns, ?_, Or.inr ⟨by simpa using hd1, ?_, ?_, ?_⟩⟩ <;>
          simp [← h2]

theorem spend_intent_v2_inv {pk : Nat} {p p1 : Policy}
    {rs rs1 : RecipientSpend} {v r c rcp : Nat} {now : Int} {amt : Nat}
    {d : Bool × Nat} {out : Policy × RecipientSpend × Nat × Nat × AuditEvent}
    (hp1 : rolloverPolicy p (currentDayOf now) = p1)
    (hrs1 : rolloverRecipientSpend rs pk rcp (currentDayOf now) = rs1)
    (hd : decideV2 p1 rs1 now rcp amt = d)
    (h : spend_intent_v2 pk p rs v r c rcp now amt = some out) :
    (c = p.authority ∨ p.agent = some c) ∧
    p1.next_sequence + 1 ≤ U64_MAX ∧
    out.2.2.2.2 = { policy := pk, sequence := p1.next_sequence, ts := now,
                    recipient := rcp, amount := amt, allowed := d.1,
                    reason_code := d.2, policy_version := p1.policy_version } ∧
    ((d.1 = true ∧ p1.spent_today_lamports + amt ≤ U64_MAX ∧
        rs1.spent_today_lamports + amt ≤ U64_MAX ∧ amt ≤ v ∧
        r + amt ≤ U64_MAX ∧
        out.1 = { p1 with next_sequence := p1.next_sequence + 1, spent_today_lamports := p1.spent_today_lamports + amt, last_spend_ts := now } ∧
        out.2.1 = { rs1 with spent_today_lamports := rs1.spent_today_lamports + amt } ∧
        out.2.2.1 = v - amt ∧ out.2.2.2.1 = r + amt) ∨
      (d.1 = false ∧
        out.1 = { p1 with next_sequence := p1.next_sequence + 1 } ∧
        out.2.1 = rs1 ∧ out.2.2.1 = v ∧ out.2.2.2.1 = r)) := by
  simp only [spend_intent_v2] at h
  rw [hp1, hrs1, hd] at h
  split at h
  case isFalse => exact absurd h (by simp)
  case isTrue hauth =>
    split at h
    case h_1 heq => exact absurd h (by simp)
    case h_2 ns heq =>
      obtain ⟨rfl, hns⟩ := checkedAddU64_some heq
      split at h
      case isTrue hd1 =>
        obtain ⟨t, ht, hft⟩ := Option.map_eq_some'.mp h
        obtain ⟨h1, h2, h3, h4, rfl⟩ := applyAllowedV2_some ht
        refine ⟨hauth, hns, ?_, Or.inl ⟨hd1, h1, h2, h3, h4, ?_, ?_, ?_, ?_⟩⟩ <;>
          simp [← hft]
      case isFalse hd1 =>
        injection h with h2
        refine ⟨hauth, hns, ?_, Or.inr ⟨by simpa using hd1, ?_, ?_, ?_, ?_⟩⟩ <;>
          simp [← h2]

theorem runCall_sequence {p : Policy} {call : SpendCall}
    {p2 : Policy} {a : AuditEvent} (h : runCall p call = some (p2, a)) :
    p2.next_sequence = p.next_sequence + 1 ∧
    a.sequence = p.next_sequence := by
  cases call with
  | v1 pk v r c rcp now amt =>
    simp only [runCall] at h
    obtain ⟨t, ht, hft⟩ := Option.map_eq_some'.mp h
    obtain ⟨-, -, haud, hbr⟩ := spend_intent_inv rfl rfl ht
    have hseq := rolloverPolicy_next_sequence p (currentDayOf now)
    injection hft with hp2 ha
    subst hp2
    subst ha
    rcases hbr with ⟨-, -, -, -, hp, -, -⟩ | ⟨-, hp, -, -⟩ <;>
      exact ⟨by simp [hp, hseq], by simp [haud, hseq]⟩
  | v2 pk rs v r c rcp now amt =>
    simp only [runCall] at h
    obtain ⟨t, ht, hft⟩ := Option.map_eq_some'.mp h
    obtain ⟨-, -, haud, hbr⟩ := spend_intent_v2_inv rfl rfl rfl ht
    have hseq := rolloverPolicy_next_sequence p (currentDayOf now)
    injection hft with hp2 ha
    subst hp2
    subst ha
    rcases hbr with ⟨-, -, -, -, -, hp, -, -, -⟩ | ⟨-, hp, -, -, -⟩ <;>
      exact ⟨by simp [hp, hseq], by simp [haud, hseq]⟩

theorem runCalls_sequence {calls : List SpendCall} {p pf : Policy}
    {audits : List AuditEvent} (h : runCalls p calls = some (pf, audits)) :
    pf.next_sequence = p.next_sequence + calls.length ∧
    audits.length = calls.length ∧
    ∀ i (hi : i < audits.length),
      (audits.get ⟨i, hi⟩).sequence = p.next_sequence + i := by
  induction calls generalizing p audits with
  | nil =>
    simp only [runCalls, Option.some.injEq, Prod.mk.injEq] at h
    obtain ⟨rfl, rfl⟩ := h
    exact ⟨rfl, rfl, fun i hi => absurd hi (by simp)⟩
  | cons call rest ih =>
    simp only [runCalls] at h
    split at h
    · exact absurd h (by simp)
    case h_2 p2 a hcall =>
      split at h
      · exact absurd h (by simp)
      case h_2 pf2 audits2 hrest =>
        simp only [Option.some.injEq, Prod.mk.injEq] at h
        obtain ⟨rfl, rfl⟩ := h
        obtain ⟨hstep_seq, hstep_aud⟩ := runCall_sequence hcall
        obtain ⟨ih1, ih2, ih3⟩ := ih hrest
        refine ⟨by simp only [List.length_cons]; omega,
                by simp [ih2], ?_⟩
        intro i hi
        cases i with
        | zero => simpa using hstep_aud
        | succ j =>
          have hj : j < audits2.length := by
            simpa using Nat.lt_of_succ_lt_succ (by simpa using hi)
          have hget : (a :: audits2).get ⟨j + 1, hi⟩ = audits2.get ⟨j, hj⟩ := rfl
          rw [hget, ih3 j hj, hstep_seq]
          omega

theorem set_policy_some {p p2 : Policy} {s b cd : Nat} {ag : Option Nat}
    (h : set_policy p s b cd ag = some p2) :
    s = p.authority ∧
    p2 = { p with daily_budget_lamports := b, cooldown_seconds := cd, agent := ag, policy_version := saturatingAddU16 p.policy_version 1 } := by
  unfold set_policy at h
  split at h
  · exact ⟨by assumption, by injection h with h1; exact h1.symm⟩
  · exact absurd h (by simp)

theorem set_policy_advanced_some {p p2 : Policy} {s b cd : Nat}
    {ag : Option Nat} {pz al : Bool} {ar : Option Nat} {cap : Nat}
    (h : set_policy_advanced p s b cd ag pz al ar cap = some p2) :
    s = p.authority ∧
    p2 = { p with daily_budget_lamports := b, cooldown_seconds := cd, agent := ag, paused := pz, allowlist_enabled := al, allowed_recipient := ar, per_recipient_daily_cap_lamports := cap, policy_version := saturatingAddU16 p.policy_version 1 } := by
  unfold set_policy_advanced at h
  split at h
  · exact ⟨by assumption, by injection h with h1; exact h1.symm⟩
  · exact absurd h (by simp)

theorem decideV2a_pass {p : Policy} {rcp amt : Nat} (h0 : amt ≠ 0)
    (hp : p.paused = false)
    (hal : p.allowlist_enabled = false ∨ p.allowed_recipient = some rcp) :
    decideV2a p rcp amt = (true, REASON_OK) := by
  unfold decideV2a
  rw [if_neg h0, if_neg (by simp [hp])]
  rcases hal with hal | hal
  · rw [if_neg (by simp [hal])]
  · by_cases he : p.allowlist_enabled = true
    · rw [if_pos he, hal]
      simp
    · rw [if_neg he]

theorem decideV2_paused {p : Policy} {rs : RecipientSpend} {now : Int}
    {rcp amt : Nat} (h0 : amt ≠ 0) (hp : p.paused = true) :
    decideV2 p rs now rcp amt = (false, REASON_PAUSED) := by
  have ha : decideV2a p rcp amt = (false, REASON_PAUSED) := by
    unfold decideV2a
    rw [if_neg h0, if_pos hp]
  unfold decideV2 decideV2b
  rw [ha]
  simp

theorem decideV2_allowlist_none {p : Policy} {rs : RecipientSpend}
    {now : Int} {rcp amt : Nat} (h0 : amt ≠ 0) (hp : p.paused = false)
    (hen : p.allowlist_enabled = true) (har : p.allowed_recipient = none) :
    decideV2 p rs now rcp amt = (false, REASON_RECIPIENT_NOT_ALLOWED) := by
  have ha : decideV2a p rcp amt = (false, REASON_RECIPIENT_NOT_ALLOWED) := by
    unfold decideV2a
    rw [if_neg h0, if_neg (by simp [hp]), if_pos hen, har]
  unfold decideV2 decideV2b
  rw [ha]
  simp

theorem spend_intent_preserves_budget {pk : Nat} {p : Policy} {v r c rcp : Nat}
    {now : Int} {amt : Nat} {out : Policy × Nat × Nat × AuditEvent}
    (h : spend_intent pk p v r c rcp now amt = some out)
    (hinv : p.spent_today_lamports ≤ p.daily_budget_lamports) :
    out.1.spent_today_lamports ≤ out.1.daily_budget_lamports := by
  rcases hdd : decideV1 (rolloverPolicy p (currentDayOf now)) now amt with ⟨b, reason⟩
  obtain ⟨-, -, -, hbr⟩ := spend_intent_inv rfl hdd h
  have hbudget := rolloverPolicy_daily_budget p (currentDayOf now)
  have hsp := rolloverPolicy_spent_le (p := p) (currentDayOf now) hinv
  rcases hbr with ⟨hb, hle, -, -, hp, -, -⟩ | ⟨hb, hp, -, -⟩
  · simp only at hb
    subst hb
    obtain ⟨-, hgetD, -⟩ := decideV1_true hdd
    rw [checkedAddU64_isSome hle] at hgetD
    simp only [Option.getD_some] at hgetD
    rw [hp]
    simpa using hgetD
  · rw [hp]
    simpa [hbudget] using hsp

theorem spend_intent_v2_preserves_budget {pk : Nat} {p : Policy}
    {rs : RecipientSpend} {v r c rcp : Nat} {now : Int} {amt : Nat}
    {out : Policy × RecipientSpend × Nat × Nat × AuditEvent}
    (h : spend_intent_v2 pk p rs v r c rcp now amt = some out)
    (hinv : p.spent_today_lamports ≤ p.daily_budget_lamports) :
    out.1.spent_today_lamports ≤ out.1.daily_budget_lamports := by
  rcases hdd : decideV2 (rolloverPolicy p (currentDayOf now))
      (rolloverRecipientSpend rs pk rcp (currentDayOf now)) now rcp amt with ⟨b, reason⟩
  obtain ⟨-, -, -, hbr⟩ := spend_intent_v2_inv rfl rfl hdd h
  have hbudget := rolloverPolicy_daily_budget p (currentDayOf now)
  have hsp := rolloverPolicy_spent_le (p := p) (currentDayOf now) hinv
  rcases hbr with ⟨hb, hle, -, -, -, hp, -, -, -⟩ | ⟨hb, hp, -, -, -⟩
  · simp only at hb
    subst hb
    have hgetD := decideV2_true hdd
    rw [checkedAddU64_isSome hle] at hgetD
    simp only [Option.getD_some] at hgetD
    rw [hp]
    simpa using hgetD
  · rw [hp]
    simpa [hbudget] using hsp

/-! ### Claim theorems -/

/-- C1: for every policy and every sequence of N spend-intent calls (v1 or
v2) that complete, whatever each decision, `next_sequence` ends at its
initial value plus N, each call writes exactly one `AuditEvent` whose
`sequence` equals the pre-call `next_sequence`, and the recorded sequence
numbers are consecutive (no gaps) and pairwise distinct (no reuse). -/
theorem C1_sequence_counter_gapless {p : Policy} {calls : List SpendCall}
    {pf : Policy} {audits : List AuditEvent}
    (h : runCalls p calls = some (pf, audits)) :
    pf.next_sequence = p.next_sequence + calls.length ∧
    audits.length = calls.length ∧
    (∀ i (hi : i < audits.length),
       (audits.get ⟨i, hi⟩).sequence = p.next_sequence + i) ∧
    (∀ i j (hi : i < audits.length) (hj : j < audits.length),
       (audits.get ⟨i, hi⟩).sequence = (audits.get ⟨j, hj⟩).sequence → i = j) := by
  obtain ⟨h1, h2, h3⟩ := runCalls_sequence h
  refine ⟨h1, h2, h3, ?_⟩
  intro i j hi hj hij
  have hvi := h3 i hi
  have hvj := h3 j hj
  omega

/-- C1 witness: a concrete two-call run (one v1 call, one v2 call) whose
final `next_sequence` is the initial value plus 2. -/
theorem C1_sequence_counter_gapless_witness :
    ({ basePolicy with spent_today_lamports := 20, next_sequence := 2 } : Policy).next_sequence =
      basePolicy.next_sequence +
        [SpendCall.v1 9 1000 0 1 2 0 10,
         SpendCall.v2 9 freshRecipientSpend 1000 0 1 2 0 10].length :=
  (@C1_sequence_counter_gapless basePolicy
    [SpendCall.v1 9 1000 0 1 2 0 10,
     SpendCall.v2 9 freshRecipientSpend 1000 0 1 2 0 10]
    { basePolicy with spent_today_lamports := 20, next_sequence := 2 }
    [{ policy := 9, sequence := 0, ts := 0, recipient := 2, amount := 10,
       allowed := true, reason_code := 1, policy_version := 1 },
     { policy := 9, sequence := 1, ts := 0, recipient := 2, amount := 10,
       allowed := true, reason_code := 1, policy_version := 1 }]
    (by decide)).1

/-- C2: whenever rule evaluation yields ALLOWED but the vault balance is
smaller than the amount, the whole call is a hard failure (`none`): in
the transactional model no `AuditEvent` persists and no policy counter,
recipient tracker or balance changes. Stated for both `spend_intent` and
`spend_intent_v2`. -/
theorem C2_transfer_failure_rolls_back :
    (∀ (pk : Nat) (p : Policy) (v r c rcp : Nat) (now : Int) (amt : Nat),
        (decideV1 (rolloverPolicy p (currentDayOf now)) now amt).1 = true →
        v < amt →
        spend_intent pk p v r c rcp now amt = none) ∧
    (∀ (pk : Nat) (p : Policy) (rs : RecipientSpend) (v r c rcp : Nat)
        (now : Int) (amt : Nat),
        (decideV2 (rolloverPolicy p (currentDayOf now))
            (rolloverRecipientSpend rs pk rcp (currentDayOf now)) now rcp amt).1 = true →
        v < amt →
        spend_intent_v2 pk p rs v r c rcp now amt = none) := by
  constructor
  · intro pk p v r c rcp now amt hall hv
    cases hout : spend_intent pk p v r c rcp now amt with
    | none => rfl
    | some out =>
      obtain ⟨-, -, -, hbr⟩ := spend_intent_inv rfl rfl hout
      rcases hbr with ⟨-, -, hle, -, -, -, -⟩ | ⟨hfalse, -, -, -⟩
      · omega
      · rw [hall] at hfalse
        simp at hfalse
  · intro pk p rs v r c rcp now amt hall hv
    cases hout : spend_intent_v2 pk p rs v r c rcp now amt with
    | none => rfl
    | some out =>
      obtain ⟨-, -, -, hbr⟩ := spend_intent_v2_inv rfl rfl rfl hout
      rcases hbr with ⟨-, -, -, hle, -, -, -, -, -⟩ | ⟨hfalse, -, -, -, -⟩
      · omega
      · rw [hall] at hfalse
        simp at hfalse

/-- C2 witness: a vault holding 5 lamports cannot serve an allowed spend of
10; both entry points fail hard. -/
theorem C2_transfer_failure_rolls_back_witness :
    spend_intent 9 basePolicy 5 0 1 2 0 10 = none ∧
    spend_intent_v2 9 basePolicy freshRecipientSpend 5 0 1 2 0 10 = none :=
  ⟨C2_transfer_failure_rolls_back.1 9 basePolicy 5 0 1 2 0 10
     (by decide) (by decide),
   C2_transfer_failure_rolls_back.2 9 basePolicy freshRecipientSpend 5 0 1 2 0 10
     (by decide) (by decide)⟩

/-- C3 counterexample: the claim quantifies over every spend intent, but
`spend_intent` (v1) never consults `paused`: on a paused policy with a
nonzero amount and all v1 rules passing, the v1 call completes with an
ALLOWED audit record (reason OK), not a PAUSED denial. -/
theorem C3_counterexample :
    (spend_intent 9 { basePolicy with paused := true } 1000 0 1 2 0 5).map
      (fun t => (t.2.2.2.allowed, t.2.2.2.reason_code)) =
      some (true, REASON_OK) := by decide

/-- C3 (amended): restricted to `spend_intent_v2`, the claim holds — for
every nonzero amount on a paused policy the decision is a denial with
reason PAUSED, whatever the allowlist, budget, cooldown or cap state (no
rule after the pause check is considered), and a completed v2 call records
exactly that denial. -/
theorem C3_paused_denied_v2 :
    (∀ (p : Policy) (rs : RecipientSpend) (now : Int) (rcp amt : Nat),
        amt ≠ 0 → p.paused = true →
        decideV2 p rs now rcp amt = (false, REASON_PAUSED)) ∧
    (∀ (pk : Nat) (p : Policy) (rs : RecipientSpend) (v r c rcp : Nat)
        (now : Int) (amt : Nat) (p2 : Policy) (rs2 : RecipientSpend)
        (v2 r2 : Nat) (a : AuditEvent),
        amt ≠ 0 → p.paused = true →
        spend_intent_v2 pk p rs v r c rcp now amt = some (p2, rs2, v2, r2, a) →
        a.allowed = false ∧ a.reason_code = REASON_PAUSED) := by
  constructor
  · intro p rs now rcp amt h0 hp
    exact decideV2_paused h0 hp
  · intro pk p rs v r c rcp now amt p2 rs2 v2 r2 a h0 hp hsp
    obtain ⟨-, -, haud, -⟩ := spend_intent_v2_inv rfl rfl rfl hsp
    have hd : decideV2 (rolloverPolicy p (currentDayOf now))
        (rolloverRecipientSpend rs pk rcp (currentDayOf now)) now rcp amt =
        (false, REASON_PAUSED) :=
      decideV2_paused h0 (by rw [rolloverPolicy_paused]; exact hp)
    simp only at haud
    rw [haud]
    simp [hd]

/-- C3 witness: concrete paused policy; the v2 decision and a completed v2
call both deny with reason PAUSED. -/
theorem C3_paused_denied_v2_witness :
    decideV2 { basePolicy with paused := true } freshRecipientSpend 0 2 5 =
      (false, REASON_PAUSED) ∧
    (({ policy := 9, sequence := 0, ts := 0, recipient := 2, amount := 5,
        allowed := false, reason_code := 5, policy_version := 1 } : AuditEvent).allowed = false ∧
     ({ policy := 9, sequence := 0, ts := 0, recipient := 2, amount := 5,
        allowed := false, reason_code := 5, policy_version := 1 } : AuditEvent).reason_code =
       REASON_PAUSED) :=
  ⟨C3_paused_denied_v2.1 { basePolicy with paused := true } freshRecipientSpend 0 2 5
     (by decide) (by decide),
   C3_paused_denied_v2.2 9 { basePolicy with paused := true } freshRecipientSpend
     1000 0 1 2 0 5
     { basePolicy with paused := true, next_sequence := 1 }
     { policy := 9, recipient := 2, spent_today_lamports := 0, day_index := 0 }
     1000 0
     { policy := 9, sequence := 0, ts := 0, recipient := 2, amount := 5,
       allowed := false, reason_code := 5, policy_version := 1 }
     (by decide) (by decide) (by decide)⟩

/-- C4 counterexample: with `cooldown_seconds = 60`, a spend at t = 0 is
allowed and sets `last_spend_ts = 0`, which the guard `last_spend_ts > 0`
then treats as "never spent": the follow-up spend at t = 59 is ALLOWED
with reason OK, not denied COOLDOWN as the claim requires. -/
theorem C4_counterexample :
    (spend_intent 9 { basePolicy with cooldown_seconds := 60 } 1000 0 1 2 0 10).map
      (fun t => t.2.2.2.allowed) = some true ∧
    ((spend_intent 9 { basePolicy with cooldown_seconds := 60 } 1000 0 1 2 0 10).bind
        (fun t => spend_intent 9 t.1 t.2.1 t.2.2.1 1 2 59 10)).map
      (fun t => (t.2.2.2.allowed, t.2.2.2.reason_code)) =
      some (true, REASON_OK) := by decide

/-- C4 (amended): the cooldown scenario holds provided the first allowed
spend happens at a positive timestamp: a completed allowed spend records
`last_spend_ts = now`; whenever `last_spend_ts > 0` and the new call
arrives less than `cooldown_seconds` later (amount nonzero and the budget
rule passing, plus pause/allowlist passing for v2), the decision is a
denial with reason COOLDOWN; and as soon as at least `cooldown_seconds`
have elapsed since `last_spend_ts` — in particular at exactly
t0 + cooldown — the decision is ALLOWED with reason OK again (the
comparison is strict `<`, not `≤`; for v2 the cap rule must also pass).
At `last_spend_ts = 0` (a spend exactly at epoch time 0) the guard
`last_spend_ts > 0` disables the cooldown. -/
theorem C4_cooldown_after_positive_spend :
    (∀ (pk : Nat) (p : Policy) (v r c rcp : Nat) (now : Int) (amt : Nat)
        (p2 : Policy) (v2 r2 : Nat) (a : AuditEvent),
        spend_intent pk p v r c rcp now amt = some (p2, v2, r2, a) →
        a.allowed = true → p2.last_spend_ts = now) ∧
    (∀ (p : Policy) (now : Int) (amt : Nat),
        p.last_spend_ts > 0 →
        now - p.last_spend_ts < (p.cooldown_seconds : Int) →
        amt ≠ 0 →
        (checkedAddU64 p.spent_today_lamports amt).getD U64_MAX ≤
          p.daily_budget_lamports →
        decideV1 p now amt = (false, REASON_COOLDOWN)) ∧
    (∀ (p : Policy) (rs : RecipientSpend) (now : Int) (rcp amt : Nat),
        p.last_spend_ts > 0 →
        now - p.last_spend_ts < (p.cooldown_seconds : Int) →
        amt ≠ 0 → p.paused = false →
        (p.allowlist_enabled = false ∨ p.allowed_recipient = some rcp) →
        (checkedAddU64 p.spent_today_lamports amt).getD U64_MAX ≤
          p.daily_budget_lamports →
        decideV2 p rs now rcp amt = (false, REASON_COOLDOWN)) ∧
    (∀ (p : Policy) (now : Int) (amt : Nat),
        (p.cooldown_seconds : Int) ≤ now - p.last_spend_ts →
        amt ≠ 0 →
        (checkedAddU64 p.spent_today_lamports amt).getD U64_MAX ≤
          p.daily_budget_lamports →
        decideV1 p now amt = (true, REASON_OK)) ∧
    (∀ (p : Policy) (rs : RecipientSpend) (now : Int) (rcp amt : Nat),
        (p.cooldown_seconds : Int) ≤ now - p.last_spend_ts →
        amt ≠ 0 → p.paused = false →
        (p.allowlist_enabled = false ∨ p.allowed_recipient = some rcp) →
        (checkedAddU64 p.spent_today_lamports amt).getD U64_MAX ≤
          p.daily_budget_lamports →
        (p.per_recipient_daily_cap_lamports = 0 ∨
          (checkedAddU64 rs.spent_today_lamports amt).getD U64_MAX ≤
            p.per_recipient_daily_cap_lamports) →
        decideV2 p rs now rcp amt = (true, REASON_OK)) := by
  refine ⟨?_, ?_, ?_, ?_, ?_⟩
  · intro pk p v r c rcp now amt p2 v2 r2 a hsp hall
    obtain ⟨-, -, haud, hbr⟩ := spend_intent_inv rfl rfl hsp
    simp only at haud
    rcases hbr with ⟨-, -, -, -, hp, -, -⟩ | ⟨hfalse, -, -, -⟩
    · simp only at hp
      rw [hp]
    · rw [haud] at hall
      simp only at hall
      rw [hfalse] at hall
      simp at hall
  · intro p now amt hpos hlt h0 hle
    unfold decideV1
    rw [if_neg h0, if_neg (by omega), if_pos ⟨hpos, hlt⟩]
  · intro p rs now rcp amt hpos hlt h0 hpz hal hle
    have ha := decideV2a_pass h0 hpz hal
    unfold decideV2 decideV2b
    rw [ha, if_neg (by simp), if_neg (by omega), if_pos ⟨hpos, hlt⟩]
  · intro p now amt hge h0 hle
    unfold decideV1
    rw [if_neg h0, if_neg (by omega), if_neg (by rintro ⟨-, hlt⟩; omega)]
  · intro p rs now rcp amt hge h0 hpz hal hle hcap
    have ha := decideV2a_pass h0 hpz hal
    unfold decideV2 decideV2b
    rw [ha, if_neg (by simp), if_neg (by omega),
        if_neg (by rintro ⟨-, hlt⟩; omega),
        if_neg (by rintro ⟨hc, hg⟩; rcases hcap with hcap | hcap <;> omega)]

/-- C4 witness: an allowed spend at t = 1000 stores `last_spend_ts = 1000`;
the follow-up at t = 1059 (59 seconds later, cooldown 60) is denied
COOLDOWN under both rule chains, and the follow-up at exactly t = 1060 is
allowed again under both rule chains. -/
theorem C4_cooldown_after_positive_spend_witness :
    ({ basePolicy with cooldown_seconds := 60, spent_today_lamports := 10, last_spend_ts := 1000, next_sequence := 1 } : Policy).last_spend_ts = 1000 ∧
    decideV1 { basePolicy with cooldown_seconds := 60, spent_today_lamports := 10, last_spend_ts := 1000, next_sequence := 1 } 1059 10 =
      (false, REASON_COOLDOWN) ∧
    decideV2 { basePolicy with cooldown_seconds := 60, spent_today_lamports := 10, last_spend_ts := 1000, next_sequence := 1 } freshRecipientSpend 1059 2 10 =
      (false, REASON_COOLDOWN) ∧
    decideV1 { basePolicy with cooldown_seconds := 60, spent_today_lamports := 10, last_spend_ts := 1000, next_sequence := 1 } 1060 10 =
      (true, REASON_OK) ∧
    decideV2 { basePolicy with cooldown_seconds := 60, spent_today_lamports := 10, last_spend_ts := 1000, next_sequence := 1 } freshRecipientSpend 1060 2 10 =
      (true, REASON_OK) :=
  ⟨C4_cooldown_after_positive_spend.1 9 { basePolicy with cooldown_seconds := 60 }
     1000 0 1 2 1000 10
     { basePolicy with cooldown_seconds := 60, spent_today_lamports := 10, last_spend_ts := 1000, next_sequence := 1 }
     990 10
     { policy := 9, sequence := 0, ts := 1000, recipient := 2, amount := 10,
       allowed := true, reason_code := 1, policy_version := 1 }
     (by decide) (by decide),
   C4_cooldown_after_positive_spend.2.1
     { basePolicy with cooldown_seconds := 60, spent_today_lamports := 10, last_spend_ts := 1000, next_sequence := 1 }
     1059 10 (by decide) (by decide) (by decide) (by decide),
   C4_cooldown_after_positive_spend.2.2.1
     { basePolicy with cooldown_seconds := 60, spent_today_lamports := 10, last_spend_ts := 1000, next_sequence := 1 }
     freshRecipientSpend 1059 2 10
     (by decide) (by decide) (by decide) (by decide) (by decide) (by decide),
   C4_cooldown_after_positive_spend.2.2.2.1
     { basePolicy with cooldown_seconds := 60, spent_today_lamports := 10, last_spend_ts := 1000, next_sequence := 1 }
     1060 10 (by decide) (by decide) (by decide),
   C4_cooldown_after_positive_spend.2.2.2.2
     { basePolicy with cooldown_seconds := 60, spent_today_lamports := 10, last_spend_ts := 1000, next_sequence := 1 }
     freshRecipientSpend 1060 2 10
     (by decide) (by decide) (by decide) (by decide) (by decide) (by decide)⟩

/-- C5 counterexample: with `daily_budget = u64::MAX`, an overflowing
`spent_today + amount` saturates to `u64::MAX`, which is not greater than
the budget, so the budget rule passes and the decision is ALLOWED — not
the BUDGET_EXCEEDED denial the claim requires "for every value of
dailyBudget including u64::MAX". -/
theorem C5_counterexample :
    U64_MAX < ({ basePolicy with daily_budget_lamports := U64_MAX, spent_today_lamports := U64_MAX } : Policy).spent_today_lamports + 1 ∧
    decideV1 { basePolicy with daily_budget_lamports := U64_MAX, spent_today_lamports := U64_MAX } 0 1 =
      (true, REASON_OK) := by decide

/-- C5 (amended): whenever `spent_today + amount` overflows u64, the
saturated sum `u64::MAX` triggers BUDGET_EXCEEDED for every daily budget
strictly below `u64::MAX` (earlier rules passing); at budget exactly
`u64::MAX` the check passes instead. -/
theorem C5_budget_overflow_denied :
    (∀ (p : Policy) (now : Int) (amt : Nat),
        p.spent_today_lamports ≤ U64_MAX →
        p.daily_budget_lamports < U64_MAX →
        U64_MAX < p.spent_today_lamports + amt →
        decideV1 p now amt = (false, REASON_BUDGET_EXCEEDED)) ∧
    (∀ (p : Policy) (rs : RecipientSpend) (now : Int) (rcp amt : Nat),
        p.spent_today_lamports ≤ U64_MAX →
        p.daily_budget_lamports < U64_MAX →
        U64_MAX < p.spent_today_lamports + amt →
        p.paused = false →
        (p.allowlist_enabled = false ∨ p.allowed_recipient = some rcp) →
        decideV2 p rs now rcp amt = (false, REASON_BUDGET_EXCEEDED)) := by
  constructor
  · intro p now amt hsle hblt hov
    have h0 : amt ≠ 0 := by omega
    have hnone : checkedAddU64 p.spent_today_lamports amt = none := by
      unfold checkedAddU64
      exact if_neg (by omega)
    unfold decideV1
    rw [if_neg h0, hnone, if_pos (by simpa using hblt)]
  · intro p rs now rcp amt hsle hblt hov hpz hal
    have h0 : amt ≠ 0 := by omega
    have hnone : checkedAddU64 p.spent_today_lamports amt = none := by
      unfold checkedAddU64
      exact if_neg (by omega)
    have ha := decideV2a_pass h0 hpz hal
    unfold decideV2 decideV2b
    rw [ha, if_neg (by simp), hnone, if_pos (by simpa using hblt)]

/-- C5 witness: `spent_today = u64::MAX` and amount 1 overflow; with budget
5 both rule chains deny BUDGET_EXCEEDED. -/
theorem C5_budget_overflow_denied_witness :
    decideV1 { basePolicy with daily_budget_lamports := 5, spent_today_lamports := U64_MAX } 0 1 =
      (false, REASON_BUDGET_EXCEEDED) ∧
    decideV2 { basePolicy with daily_budget_lamports := 5, spent_today_lamports := U64_MAX } freshRecipientSpend 0 2 1 =
      (false, REASON_BUDGET_EXCEEDED) :=
  ⟨C5_budget_overflow_denied.1
     { basePolicy with daily_budget_lamports := 5, spent_today_lamports := U64_MAX }
     0 1 (by decide) (by decide) (by decide),
   C5_budget_overflow_denied.2
     { basePolicy with daily_budget_lamports := 5, spent_today_lamports := U64_MAX }
     freshRecipientSpend 0 2 1
     (by decide) (by decide) (by decide) (by decide) (by decide)⟩

/-- C6 counterexample: the invariant is not preserved by every operation —
`set_policy` may lower the budget below the accumulated counter: starting
from a fresh policy (budget 100, day 0), an allowed spend of 60 followed
by `set_policy` with budget 10 leaves `spent_today = 60 > 10 =
daily_budget` while the stored day index 0 still equals the current day. -/
theorem C6_counterexample :
    ((spend_intent 9 (init_policy 0 1 100 0 none 0) 1000 0 1 2 0 60).bind
        (fun t => set_policy t.1 1 10 0 none)).map
      (fun q => (q.spent_today_lamports, q.daily_budget_lamports, q.day_index)) =
      some (60, 10, currentDayOf 0) ∧
    ¬ (60 ≤ 10) := by decide

/-- C6 (amended): the invariant `spent_today ≤ daily_budget` holds in every
state reachable from `initialize_policy` by spend intents (v1 and v2) and
by `set_policy` / `set_policy_advanced` calls whose new budget is at least
the spent-today counter at the time of the call; an unrestricted budget
reduction is the one operation that can break it. -/
theorem C6_budget_invariant {p : Policy} (h : ReachableBudget p) :
    p.spent_today_lamports ≤ p.daily_budget_lamports := by
  induction h with
  | init vk o b cd ag now => exact Nat.zero_le _
  | set_simple hr hle hset ih =>
    obtain ⟨-, rfl⟩ := set_policy_some hset
    simpa using hle
  | set_adv hr hle hset ih =>
    obtain ⟨-, rfl⟩ := set_policy_advanced_some hset
    simpa using hle
  | spend_v1 hr hsp ih => exact spend_intent_preserves_budget hsp ih
  | spend_v2 hr hsp ih => exact spend_intent_v2_preserves_budget hsp ih

/-- C6 witness: the invariant at a concrete freshly initialized policy. -/
theorem C6_budget_invariant_witness :
    (init_policy 0 1 100 0 none 0).spent_today_lamports ≤
      (init_policy 0 1 100 0 none 0).daily_budget_lamports :=
  C6_budget_invariant (ReachableBudget.init 0 1 100 0 none 0)

/-- C7: a spend intent whose caller is neither the policy authority nor the
set agent fails hard (`none`) in both entry points: in the transactional
model no policy field, tracker, counter or audit record is written. -/
theorem C7_unauthorized_no_mutation
    (pk : Nat) (p : Policy) (rs : RecipientSpend) (v r c rcp : Nat)
    (now : Int) (amt : Nat)
    (hna : c ≠ p.authority) (hnag : p.agent ≠ some c) :
    spend_intent pk p v r c rcp now amt = none ∧
    spend_intent_v2 pk p rs v r c rcp now amt = none := by
  have hcond : ¬ (c = p.authority ∨ p.agent = some c) := by
    rintro (hh | hh)
    · exact hna hh
    · exact hnag hh
  constructor
  · unfold spend_intent
    rw [if_neg hcond]
  · unfold spend_intent_v2
    rw [if_neg hcond]

/-- C7 witness: caller 42 is neither authority 1 nor an agent (none). -/
theorem C7_unauthorized_no_mutation_witness :
    spend_intent 9 basePolicy 1000 0 42 2 0 10 = none ∧
    spend_intent_v2 9 basePolicy freshRecipientSpend 1000 0 42 2 0 10 = none :=
  C7_unauthorized_no_mutation 9 basePolicy freshRecipientSpend 1000 0 42 2 0 10
    (by decide) (by decide)

/-- C8 counterexample: `policy_version` is bumped with `saturating_add(1)`,
so a successful `set_policy` on a policy already at version 65535 leaves
the version unchanged — it is not incremented as the claim states. -/
theorem C8_counterexample :
    ({ basePolicy with policy_version := 65535 } : Policy).policy_version = 65535 ∧
    (set_policy { basePolicy with policy_version := 65535 } 1 5 5 none).map
      (fun q => q.policy_version) = some 65535 := by decide

/-- C8 (amended): every successful `set_policy` replaces exactly budget,
cooldown and agent, bumps `policy_version` by one saturating at 65535
(`u16::MAX`), and leaves `spent_today_lamports`, `day_index`,
`last_spend_ts`, `next_sequence` and every other field unchanged;
`set_policy_advanced` additionally replaces the pause, allowlist and
per-recipient-cap fields with the same frame. -/
theorem C8_set_policy_frame :
    (∀ (p : Policy) (s b cd : Nat) (ag : Option Nat) (p2 : Policy),
        set_policy p s b cd ag = some p2 →
        p2.daily_budget_lamports = b ∧ p2.cooldown_seconds = cd ∧
        p2.agent = ag ∧
        p2.policy_version = min (p.policy_version + 1) U16_MAX ∧
        p2.spent_today_lamports = p.spent_today_lamports ∧
        p2.day_index = p.day_index ∧
        p2.last_spend_ts = p.last_spend_ts ∧
        p2.next_sequence = p.next_sequence ∧
        p2.paused = p.paused ∧
        p2.allowlist_enabled = p.allowlist_enabled ∧
        p2.allowed_recipient = p.allowed_recipient ∧
        p2.per_recipient_daily_cap_lamports = p.per_recipient_daily_cap_lamports ∧
        p2.vault = p.vault ∧ p2.authority = p.authority) ∧
    (∀ (p : Policy) (s b cd : Nat) (ag : Option Nat) (pz al : Bool)
        (ar : Option Nat) (cap : Nat) (p2 : Policy),
        set_policy_advanced p s b cd ag pz al ar cap = some p2 →
        p2.daily_budget_lamports = b ∧ p2.cooldown_seconds = cd ∧
        p2.agent = ag ∧ p2.paused = pz ∧ p2.allowlist_enabled = al ∧
        p2.allowed_recipient = ar ∧
        p2.per_recipient_daily_cap_lamports = cap ∧
        p2.policy_version = min (p.policy_version + 1) U16_MAX ∧
        p2.spent_today_lamports = p.spent_today_lamports ∧
        p2.day_index = p.day_index ∧
        p2.last_spend_ts = p.last_spend_ts ∧
        p2.next_sequence = p.next_sequence ∧
        p2.vault = p.vault ∧ p2.authority = p.authority) := by
  constructor
  · intro p s b cd ag p2 h
    obtain ⟨-, rfl⟩ := set_policy_some h
    exact ⟨rfl, rfl, rfl, rfl, rfl, rfl, rfl, rfl, rfl, rfl, rfl, rfl, rfl, rfl⟩
  · intro p s b cd ag pz al ar cap p2 h
    obtain ⟨-, rfl⟩ := set_policy_advanced_some h
    exact ⟨rfl, rfl, rfl, rfl, rfl, rfl, rfl, rfl, rfl, rfl, rfl, rfl, rfl, rfl⟩

/-- C8 witness: a concrete `set_policy` call replacing budget, cooldown and
agent; the counters are untouched. -/
theorem C8_set_policy_frame_witness :
    ({ basePolicy with daily_budget_lamports := 7, cooldown_seconds := 8, agent := some 3, policy_version := 2 } : Policy).daily_budget_lamports = 7 :=
  (C8_set_policy_frame.1 basePolicy 1 7 8 (some 3)
    { basePolicy with daily_budget_lamports := 7, cooldown_seconds := 8, agent := some 3, policy_version := 2 }
    (by decide)).1

/-- C9 counterexample: the current day is computed with Rust `i64`
division, which truncates toward zero; at the negative timestamp -1 the
code's day is 0 while the claimed `floor(now / 86400)` is -1. -/
theorem C9_counterexample :
    currentDayOf (-1) = 0 ∧
    Int.fdiv (-1) SECONDS_PER_DAY = -1 ∧
    currentDayOf (-1) ≠ Int.fdiv (-1) SECONDS_PER_DAY := by decide

/-- C9 (amended): the current day is `now.tdiv 86400` (truncation toward
zero, never faulting), which agrees with `floor(now / 86400)` exactly for
`now ≥ 0`; on every completed spend intent the stored policy day index
(and for v2 the tracker's own day index) equals that current day, the
rollover zeroes the spent counter whenever the day differs, and the
recorded decision is the rule chain evaluated on the rolled-over state. -/
theorem C9_day_truncated_rollover :
    (∀ now : Int, 0 ≤ now → currentDayOf now = Int.fdiv now SECONDS_PER_DAY) ∧
    (∀ (p : Policy) (now : Int), currentDayOf now ≠ p.day_index →
        (rolloverPolicy p (currentDayOf now)).spent_today_lamports = 0 ∧
        (rolloverPolicy p (currentDayOf now)).day_index = currentDayOf now) ∧
    (∀ (pk : Nat) (p : Policy) (v r c rcp : Nat) (now : Int) (amt : Nat)
        (p2 : Policy) (v2 r2 : Nat) (a : AuditEvent),
        spend_intent pk p v r c rcp now amt = some (p2, v2, r2, a) →
        p2.day_index = currentDayOf now ∧
        a.allowed = (decideV1 (rolloverPolicy p (currentDayOf now)) now amt).1) ∧
    (∀ (pk : Nat) (p : Policy) (rs : RecipientSpend) (v r c rcp : Nat)
        (now : Int) (amt : Nat) (p2 : Policy) (rs2 : RecipientSpend)
        (v2 r2 : Nat) (a : AuditEvent),
        spend_intent_v2 pk p rs v r c rcp now amt = some (p2, rs2, v2, r2, a) →
        p2.day_index = currentDayOf now ∧
        rs2.day_index = currentDayOf now ∧
        a.allowed = (decideV2 (rolloverPolicy p (currentDayOf now))
          (rolloverRecipientSpend rs pk rcp (currentDayOf now)) now rcp amt).1) := by
  refine ⟨?_, ?_, ?_, ?_⟩
  · intro now hnow
    exact (Int.fdiv_eq_tdiv hnow (by decide)).symm
  · intro p now hne
    unfold rolloverPolicy
    rw [if_pos hne]
    exact ⟨rfl, rfl⟩
  · intro pk p v r c rcp now amt p2 v2 r2 a hsp
    obtain ⟨-, -, haud, hbr⟩ := spend_intent_inv rfl rfl hsp
    simp only at haud
    have hday := rolloverPolicy_day_index p (currentDayOf now)
    rcases hbr with ⟨-, -, -, -, hp, -, -⟩ | ⟨-, hp, -, -⟩ <;>
    · simp only at hp
      constructor
      · rw [hp]
        simpa using hday
      · rw [haud]
  · intro pk p rs v r c rcp now amt p2 rs2 v2 r2 a hsp
    obtain ⟨-, -, haud, hbr⟩ := spend_intent_v2_inv rfl rfl rfl hsp
    simp only at haud
    have hday := rolloverPolicy_day_index p (currentDayOf now)
    have hdayrs := rolloverRecipientSpend_day_index rs pk rcp (currentDayOf now)
    rcases hbr with ⟨-, -, -, -, -, hp, hrs2, -, -⟩ | ⟨-, hp, hrs2, -, -⟩ <;>
    · simp only at hp hrs2
      refine ⟨?_, ?_, ?_⟩
      · rw [hp]
        simpa using hday
      · rw [hrs2]
        simpa using hdayrs
      · rw [haud]

/-- C9 witness: at t = 86401 (day 1) the truncated and floored day agree,
and a completed v2 call at that time rolls both day indexes to 1. -/
theorem C9_day_truncated_rollover_witness :
    currentDayOf 86401 = Int.fdiv 86401 SECONDS_PER_DAY ∧
    ({ basePolicy with spent_today_lamports := 10, day_index := 1, last_spend_ts := 86401, next_sequence := 1 } : Policy).day_index = currentDayOf 86401 ∧
    ({ policy := 9, recipient := 2, spent_today_lamports := 10, day_index := 1 } : RecipientSpend).day_index = currentDayOf 86401 :=
  ⟨C9_day_truncated_rollover.1 86401 (by decide),
   (C9_day_truncated_rollover.2.2.2 9 basePolicy freshRecipientSpend 1000 0 1 2
      86401 10
      { basePolicy with spent_today_lamports := 10, day_index := 1, last_spend_ts := 86401, next_sequence := 1 }
      { policy := 9, recipient := 2, spent_today_lamports := 10, day_index := 1 }
      990 10
      { policy := 9, sequence := 0, ts := 86401, recipient := 2, amount := 10,
        allowed := true, reason_code := 1, policy_version := 1 }
      (by decide)).1,
   (C9_day_truncated_rollover.2.2.2 9 basePolicy freshRecipientSpend 1000 0 1 2
      86401 10
      { basePolicy with spent_today_lamports := 10, day_index := 1, last_spend_ts := 86401, next_sequence := 1 }
      { policy := 9, recipient := 2, spent_today_lamports := 10, day_index := 1 }
      990 10
      { policy := 9, sequence := 0, ts := 86401, recipient := 2, amount := 10,
        allowed := true, reason_code := 1, policy_version := 1 }
      (by decide)).2.1⟩

/-- C10 (implicit claim): in `spend_intent_v2`, enabling the allowlist
while clearing `allowed_recipient` blocks every recipient — for every
nonzero amount on an unpaused policy with `allowlist_enabled = true` and
`allowed_recipient = none`, the decision is a denial with reason
RECIPIENT_NOT_ALLOWED, and a completed call records exactly that. -/
theorem C10_allowlist_cleared_blocks_all :
    (∀ (p : Policy) (rs : RecipientSpend) (now : Int) (rcp amt : Nat),
        amt ≠ 0 → p.paused = false → p.allowlist_enabled = true →
        p.allowed_recipient = none →
        decideV2 p rs now rcp amt = (false, REASON_RECIPIENT_NOT_ALLOWED)) ∧
    (∀ (pk : Nat) (p : Policy) (rs : RecipientSpend) (v r c rcp : Nat)
        (now : Int) (amt : Nat) (p2 : Policy) (rs2 : RecipientSpend)
        (v2 r2 : Nat) (a : AuditEvent),
        amt ≠ 0 → p.paused = false → p.allowlist_enabled = true →
        p.allowed_recipient = none →
        spend_intent_v2 pk p rs v r c rcp now amt = some (p2, rs2, v2, r2, a) →
        a.allowed = false ∧ a.reason_code = REASON_RECIPIENT_NOT_ALLOWED) := by
  constructor
  · intro p rs now rcp amt h0 hpz hen har
    exact decideV2_allowlist_none h0 hpz hen har
  · intro pk p rs v r c rcp now amt p2 rs2 v2 r2 a h0 hpz hen har hsp
    obtain ⟨-, -, haud, -⟩ := spend_intent_v2_inv rfl rfl rfl hsp
    have hd : decideV2 (rolloverPolicy p (currentDayOf now))
        (rolloverRecipientSpend rs pk rcp (currentDayOf now)) now rcp amt =
        (false, REASON_RECIPIENT_NOT_ALLOWED) :=
      decideV2_allowlist_none h0
        (by rw [rolloverPolicy_paused]; exact hpz)
        (by rw [rolloverPolicy_allowlist_enabled]; exact hen)
        (by rw [rolloverPolicy_allowed_recipient]; exact har)
    simp only at haud
    rw [haud]
    simp [hd]

/-- C10 witness: a concrete unpaused policy with the allowlist enabled and
no allowed recipient denies recipient 2 with RECIPIENT_NOT_ALLOWED, both
as a decision and in a completed call's audit record. -/
theorem C10_allowlist_cleared_blocks_all_witness :
    decideV2 { basePolicy with allowlist_enabled := true } freshRecipientSpend 0 2 5 =
      (false, REASON_RECIPIENT_NOT_ALLOWED) ∧
    (({ policy := 9, sequence := 0, ts := 0, recipient := 2, amount := 5,
        allowed := false, reason_code := 6, policy_version := 1 } : AuditEvent).allowed = false ∧
     ({ policy := 9, sequence := 0, ts := 0, recipient := 2, amount := 5,
        allowed := false, reason_code := 6, policy_version := 1 } : AuditEvent).reason_code =
       REASON_RECIPIENT_NOT_ALLOWED) :=
  ⟨C10_allowlist_cleared_blocks_all.1 { basePolicy with allowlist_enabled := true }
     freshRecipientSpend 0 2 5 (by decide) (by decide) (by decide) (by decide),
   C10_allowlist_cleared_blocks_all.2 9 { basePolicy with allowlist_enabled := true }
     freshRecipientSpend 1000 0 1 2 0 5
     { basePolicy with allowlist_enabled := true, next_sequence := 1 }
     { policy := 9, recipient := 2, spent_today_lamports := 0, day_index := 0 }
     1000 0
     { policy := 9, sequence := 0, ts := 0, recipient := 2, amount := 5,
       allowed := false, reason_code := 6, policy_version := 1 }
     (by decide) (by decide) (by decide) (by decide) (by decide)⟩

end PolicyVault
